import Mathlib

/-!
Shallow embedding of the OKLCH-Palette core (src/color-converter.ts, canonical
per-channel-formula variant, together with the UI event handlers of the main
entry file) and proofs of the specified properties.

Modelling conventions:
* JavaScript numbers are modelled as `JSVal`: either an exact rational or `nan`.
  All arithmetic propagates `nan`, matching IEEE float semantics for the
  operations that actually occur in this code base (`+`, `-`, `*`, unary `-`,
  `Math.max`, `Math.min`, `%`).  Rounding of binary floats is not modelled:
  numbers are kept exact, which is the standard idealisation.
* The transcendental functions `Math.exp`, `Math.sin`, `Math.atan` are
  abstracted as a `CurveOps` record of functions `ℚ → ℚ`; every theorem is
  universally quantified over it.  They are lifted to `JSVal` so that `nan`
  propagates, matching `Math.exp(NaN) = NaN` etc.
* The external culori conversion `oklchToHex` is abstracted as a function
  parameter `hexFn : JSVal → JSVal → JSVal → String`.
* The JS idiom `params.m || default` treats `0` (and absence) as falsy; it is
  modelled by `orFalsyDefault`.
* TypeScript object spreads produce value copies in this purely functional
  embedding; the per-shade records hold no references, so this is faithful.
-/

/-- A JavaScript number as used by this code: an exact rational or NaN. -/
inductive JSVal where
  | nan : JSVal
  | num : ℚ → JSVal
deriving DecidableEq, Repr

namespace JSVal

/-- JS addition: NaN-propagating. -/
def add : JSVal → JSVal → JSVal
  | num a, num b => num (a + b)
  | _, _ => nan

/-- JS subtraction: NaN-propagating. -/
def sub : JSVal → JSVal → JSVal
  | num a, num b => num (a - b)
  | _, _ => nan

/-- JS multiplication: NaN-propagating. -/
def mul : JSVal → JSVal → JSVal
  | num a, num b => num (a * b)
  | _, _ => nan

/-- JS unary minus: NaN-propagating. -/
def neg : JSVal → JSVal
  | num a => num (-a)
  | nan => nan

/-- JS `Math.max`: returns NaN if either argument is NaN. -/
def jmax : JSVal → JSVal → JSVal
  | num a, num b => num (max a b)
  | _, _ => nan

/-- JS `Math.min`: returns NaN if either argument is NaN. -/
def jmin : JSVal → JSVal → JSVal
  | num a, num b => num (min a b)
  | _, _ => nan

/-- Truncation toward zero, as used by the JS `%` remainder. -/
def truncQ (q : ℚ) : ℤ := if 0 ≤ q then ⌊q⌋ else ⌈q⌉

/-- JS remainder `a % m` for a nonzero constant modulus `m` (here always 360):
keeps the sign of the dividend; NaN-propagating. -/
def jmod : JSVal → ℚ → JSVal
  | num a, m => num (a - m * truncQ (a / m))
  | nan, _ => nan

/-- Lift a real-valued library function (`Math.exp`, `Math.sin`, `Math.atan`)
to JS values; these functions all map NaN to NaN. -/
def map1 (f : ℚ → ℚ) : JSVal → JSVal
  | num a => num (f a)
  | nan => nan

end JSVal

open JSVal

/-- Abstraction of the transcendental functions of `Math` used by the curves. -/
structure CurveOps where
  exp : ℚ → ℚ
  sin : ℚ → ℚ
  atan : ℚ → ℚ

/-- Embedding of `interface EasingParams`: a map of optional curve parameters. -/
structure EasingParams where
  m : Option ℚ := none
  c : Option ℚ := none
  a : Option ℚ := none
  k : Option ℚ := none
  d : Option ℚ := none
  b : Option ℚ := none
deriving DecidableEq, Repr

/-- The empty parameter object `{}`. -/
def EasingParams.empty : EasingParams := {}

/-- The JS defaulting idiom `v || dflt`: the default is used when the
parameter is absent or when its value is `0` (falsy). -/
def orFalsyDefault (v : Option ℚ) (dflt : ℚ) : ℚ :=
  match v with
  | none => dflt
  | some q => if q = 0 then dflt else q

/-- The six curve kinds of `PropertyFormulaConfig['activeCurve']`. -/
inductive CurveKind where
  | Linear | Normal | Quad | Arctan | Sine | Expo
deriving DecidableEq, Repr

/-- The `formulaRange` record (`from`/`to` in the source; `from` is a reserved
word in Lean). -/
structure FormulaRange where
  rFrom : ℚ
  rTo : ℚ
deriving DecidableEq, Repr

/-- Embedding of `interface PropertyFormulaConfig`. -/
structure PropertyFormulaConfig where
  activeCurve : Option CurveKind
  curveParams : EasingParams
  formulaRange : FormulaRange
deriving DecidableEq, Repr

/-- Normalized shade position `i / (steps - 1)` of the source loops.  Its only
use sites have `i < steps`; for `steps = 1` the source computes `0/0`, which is
NaN in JS. -/
def normX (i steps : ℕ) : JSVal :=
  if steps = 1 then .nan else .num ((i : ℚ) / ((steps : ℚ) - 1))

/-- The curve formula of `generateCurveValues` (the `switch (curveType)` body,
before clamping). -/
def curveY (ops : CurveOps) (ck : CurveKind) (x : JSVal) (p : EasingParams) : JSVal :=
  match ck with
  | .Linear =>
      add (mul (num (orFalsyDefault p.m 0.94)) x) (num (orFalsyDefault p.c 0))
  | .Normal =>
      let kxd := sub (mul (num (orFalsyDefault p.k 0.60)) x) (num (orFalsyDefault p.d 0))
      add (mul (num (orFalsyDefault p.a 0.18)) (map1 ops.exp (neg (mul kxd kxd))))
        (num (orFalsyDefault p.c 0.18))
  | .Quad =>
      let kxd := sub (mul (num (orFalsyDefault p.k 0.38)) x) (num (orFalsyDefault p.d 1.40))
      add (mul (num (orFalsyDefault p.a 0.07)) (mul kxd kxd)) (num (orFalsyDefault p.c 0.07))
  | .Arctan =>
      let kxd := sub (mul (num (orFalsyDefault p.k 0.40)) x) (num (orFalsyDefault p.d 1.68))
      add (mul (num (orFalsyDefault p.b 0.16)) (map1 ops.atan kxd))
        (num (orFalsyDefault p.c 0.18))
  | .Sine =>
      let kxd := sub (mul (num (orFalsyDefault p.k 0.60)) x) (num (orFalsyDefault p.d 0))
      add (mul (num (orFalsyDefault p.a 0.18)) (map1 ops.sin kxd))
        (num (orFalsyDefault p.c 0.18))
  | .Expo =>
      let kxd := sub (mul (num (orFalsyDefault p.k 0.35)) x) (num (orFalsyDefault p.d 2.50))
      add (mul (num (orFalsyDefault p.a 0.18)) (map1 ops.exp kxd)) (num (orFalsyDefault p.c 0))

/-- The clamp `Math.max(0, Math.min(1, y))` of `generateCurveValues`. -/
def clamp01 (v : JSVal) : JSVal := jmax (num 0) (jmin (num 1) v)

/-- Embedding of `generateCurveValues(steps, curveType, params)`. -/
def generateCurveValues (ops : CurveOps) (steps : ℕ) (curveType : Option CurveKind)
    (p : EasingParams) : List JSVal :=
  match curveType with
  | none => (List.range steps).map (fun i => normX i steps)
  | some ck => (List.range steps).map (fun i => clamp01 (curveY ops ck (normX i steps) p))

/-- Embedding of `calculateEasedFactor(x, formulaConfig)`: the second, unclamped evaluation
path in the source.  Note that its `Normal` branch calls `Math.sin`, its `Expo`
branch computes the Gaussian, and its `Linear` branch defaults `m` to `1`. -/
def calculateEasedFactor (ops : CurveOps) (x : JSVal) (cfg : PropertyFormulaConfig) : JSVal :=
  let p := cfg.curveParams
  match cfg.activeCurve with
  | some .Linear =>
      add (mul (num (orFalsyDefault p.m 1)) x) (num (orFalsyDefault p.c 0))
  | some .Normal =>
      add (mul (num (orFalsyDefault p.a 0.18))
        (map1 ops.sin (sub (mul (num (orFalsyDefault p.k 0.60)) x) (num (orFalsyDefault p.d 0)))))
        (num (orFalsyDefault p.c 0.18))
  | some .Quad =>
      let kxd := sub (mul (num (orFalsyDefault p.k 0.38)) x) (num (orFalsyDefault p.d 1.40))
      add (mul (num (orFalsyDefault p.a 0.07)) (mul kxd kxd)) (num (orFalsyDefault p.c 0.07))
  | some .Arctan =>
      add (mul (num (orFalsyDefault p.b 0.16))
        (map1 ops.atan (sub (mul (num (orFalsyDefault p.k 0.40)) x) (num (orFalsyDefault p.d 1.68)))))
        (num (orFalsyDefault p.c 0.18))
  | some .Sine =>
      add (mul (num (orFalsyDefault p.a 0.18))
        (map1 ops.sin (sub (mul (num (orFalsyDefault p.k 0.60)) x) (num (orFalsyDefault p.d 0)))))
        (num (orFalsyDefault p.c 0.18))
  | some .Expo =>
      let kxd := sub (mul (num (orFalsyDefault p.k 0.35)) x) (num (orFalsyDefault p.d 2.50))
      add (mul (num (orFalsyDefault p.a 0.18)) (map1 ops.exp (neg (mul kxd kxd))))
        (num (orFalsyDefault p.c 0))
  | none => x

/-- Embedding of `getDefaultParameters(curveType)`. -/
def getDefaultParameters : Option CurveKind → EasingParams
  | none => {}
  | some .Linear => { m := some 0.94, c := some 0.00 }
  | some .Normal => { a := some 0.18, k := some 0.60, d := some 0.00, c := some 0.18 }
  | some .Quad => { a := some 0.07, k := some 0.38, d := some 1.40, c := some 0.07 }
  | some .Arctan => { b := some 0.16, k := some 0.40, d := some 1.68, c := some 0.18 }
  | some .Sine => { a := some 0.18, k := some 0.60, d := some 0.00, c := some 0.18 }
  | some .Expo => { a := some 0.18, k := some 0.35, d := some 2.50, c := some 0.00 }

/-- Embedding of `interface PaletteColor`: one shade of the palette. -/
structure PaletteColor where
  id : ℕ
  l : JSVal
  c : JSVal
  h : JSVal
  hex : String
deriving DecidableEq, Repr

/-- Embedding of `interface OKLCHColor`. -/
structure OKLCHColor where
  l : JSVal
  c : JSVal
  h : JSVal
deriving DecidableEq, Repr

/-- The three channels (`PluginState['activeProperty']`). -/
inductive Property where
  | Luminance | Chroma | Hue
deriving DecidableEq, Repr

/-- The `formulas` record of `PluginState`: one config per channel. -/
structure Formulas where
  luminance : PropertyFormulaConfig
  chroma : PropertyFormulaConfig
  hue : PropertyFormulaConfig
deriving DecidableEq, Repr

/-- Read the config of one channel (`state.formulas[property]`). -/
def Formulas.get (f : Formulas) : Property → PropertyFormulaConfig
  | .Luminance => f.luminance
  | .Chroma => f.chroma
  | .Hue => f.hue

/-- Replace the config of one channel (`newState.formulas[prop] = ...`). -/
def Formulas.setAt (f : Formulas) : Property → PropertyFormulaConfig → Formulas
  | .Luminance, cfg => { f with luminance := cfg }
  | .Chroma, cfg => { f with chroma := cfg }
  | .Hue, cfg => { f with hue := cfg }

/-- Embedding of `interface PluginState` (canonical variant, with `originalPaletteData`). -/
structure PluginState where
  activeProperty : Property
  paletteData : List PaletteColor
  originalPaletteData : Option (List PaletteColor)
  isNodeSelected : Bool
  baseColor : OKLCHColor
  amountOfShades : ℕ
  formulas : Formulas
  assetName : String
deriving DecidableEq, Repr

/-- List map carrying the running index, mirroring the source's indexed `for`
loops over `paletteData`. -/
def mapWithIndex (f : ℕ → α → β) : List α → ℕ → List β
  | [], _ => []
  | a :: as, i => f i a :: mapWithIndex f as (i + 1)

/-- In-place style update of one list position (`paletteData[i].l = ...`). -/
def modifyIdx : List α → ℕ → (α → α) → List α
  | [], _, _ => []
  | a :: as, 0, f => f a :: as
  | a :: as, n + 1, f => a :: modifyIdx as n f

/-- One pass of the `properties.forEach` loop of `recalculatePalette`: apply
the channel's formula (when active) to every shade's value for that channel.
`easedValues[i]` for an index past the end of the array is `undefined` in JS,
which behaves as NaN in the subsequent arithmetic. -/
def applyFormulaToChannel (ops : CurveOps) (steps : ℕ) (cfg : PropertyFormulaConfig)
    (property : Property) (pd : List PaletteColor) : List PaletteColor :=
  match cfg.activeCurve with
  | none => pd
  | some ck =>
    let easedValues := generateCurveValues ops steps (some ck) cfg.curveParams
    mapWithIndex (fun i color =>
      let easedFactor := (easedValues[i]?).getD .nan
      let newValue := add (num cfg.formulaRange.rFrom)
        (mul (sub (num cfg.formulaRange.rTo) (num cfg.formulaRange.rFrom)) easedFactor)
      match property with
      | .Luminance => { color with l := jmax (num 0) (jmin (num 1) newValue) }
      | .Chroma => { color with c := jmax (num 0) (jmin (num 0.4) newValue) }
      | .Hue => { color with h := jmod newValue 360 }) pd 0

/-- The final hex-refresh loop of `recalculatePalette`. -/
def refreshHex (hexFn : JSVal → JSVal → JSVal → String) (pd : List PaletteColor) :
    List PaletteColor :=
  pd.map (fun color => { color with hex := hexFn color.l color.c color.h })

/-- Embedding of `recalculatePalette(state)`. -/
def recalculatePalette (ops : CurveOps) (hexFn : JSVal → JSVal → JSVal → String)
    (state : PluginState) : PluginState :=
  let steps := state.amountOfShades
  let pd0 := applyFormulaToChannel ops steps (state.formulas.get .Luminance) .Luminance
    state.paletteData
  let pd1 := applyFormulaToChannel ops steps (state.formulas.get .Chroma) .Chroma pd0
  let pd2 := applyFormulaToChannel ops steps (state.formulas.get .Hue) .Hue pd1
  { state with paletteData := refreshHex hexFn pd2 }

/-- Embedding of `initializePaletteData(baseColor, steps)`. -/
def initializePaletteData (hexFn : JSVal → JSVal → JSVal → String)
    (baseColor : OKLCHColor) (steps : ℕ) : List PaletteColor :=
  (List.range steps).map (fun i =>
    let l := normX i steps
    { id := i, l := l, c := baseColor.c, h := baseColor.h, hex := hexFn l baseColor.c baseColor.h })

/-- Embedding of `getPropertyRange(property)`. -/
def getPropertyRange : Property → FormulaRange
  | .Luminance => { rFrom := 0, rTo := 1 }
  | .Chroma => { rFrom := 0, rTo := 0.4 }
  | .Hue => { rFrom := 0, rTo := 360 }

/-- Embedding of `getActivePropertyFormula(state)`. -/
def getActivePropertyFormula (state : PluginState) : PropertyFormulaConfig :=
  state.formulas.get state.activeProperty

/-- Embedding of a `Partial<PropertyFormulaConfig>` argument of `updateActivePropertyFormula`:
each field is present or absent. -/
structure FormulaConfigUpdate where
  activeCurve : Option (Option CurveKind) := none
  curveParams : Option EasingParams := none
  formulaRange : Option FormulaRange := none
deriving DecidableEq, Repr

/-- The object-spread merge `{ ...state.formulas[active], ...updates }`. -/
def mergeConfig (cfg : PropertyFormulaConfig) (u : FormulaConfigUpdate) :
    PropertyFormulaConfig :=
  { activeCurve := u.activeCurve.getD cfg.activeCurve,
    curveParams := u.curveParams.getD cfg.curveParams,
    formulaRange := u.formulaRange.getD cfg.formulaRange }

/-- Embedding of `updateActivePropertyFormula(state, updates)`. -/
def updateActivePropertyFormula (state : PluginState) (u : FormulaConfigUpdate) :
    PluginState :=
  { state with formulas := (state.formulas.setAt state.activeProperty
      (mergeConfig (state.formulas.get state.activeProperty) u)) }

/-- Embedding of `createPropertyFormulaConfig(property)`. -/
def createPropertyFormulaConfig (property : Property) : PropertyFormulaConfig :=
  { activeCurve := none, curveParams := {}, formulaRange := getPropertyRange property }

/-- Embedding of `hasAnyActiveFormula(state)`. -/
def hasAnyActiveFormula (state : PluginState) : Bool :=
  state.formulas.luminance.activeCurve.isSome ||
  state.formulas.chroma.activeCurve.isSome ||
  state.formulas.hue.activeCurve.isSome

/-- The element spread `{ ...color }` used by the snapshot copy loops. -/
def copyColor (color : PaletteColor) : PaletteColor :=
  { id := color.id, l := color.l, c := color.c, h := color.h, hex := color.hex }

/-- Embedding of `saveOriginalPaletteState(state)`. -/
def saveOriginalPaletteState (state : PluginState) : PluginState :=
  match state.originalPaletteData with
  | none => { state with originalPaletteData := some (state.paletteData.map copyColor) }
  | some _ => state

/-- Embedding of `resetPaletteToOriginal(state)`. -/
def resetPaletteToOriginal (state : PluginState) : PluginState :=
  match state.originalPaletteData with
  | none => state
  | some orig =>
    { state with
      paletteData := orig.map copyColor,
      originalPaletteData := none,
      formulas :=
        { luminance := createPropertyFormulaConfig .Luminance,
          chroma := createPropertyFormulaConfig .Chroma,
          hue := createPropertyFormulaConfig .Hue } }

/-- Embedding of `createInitialState(baseColor, steps)`. -/
def createInitialState (hexFn : JSVal → JSVal → JSVal → String)
    (baseColor : OKLCHColor) (steps : ℕ := 10) : PluginState :=
  { activeProperty := .Luminance,
    paletteData := initializePaletteData hexFn baseColor steps,
    originalPaletteData := none,
    isNodeSelected := false,
    baseColor := baseColor,
    amountOfShades := steps,
    formulas :=
      { luminance := createPropertyFormulaConfig .Luminance,
        chroma := createPropertyFormulaConfig .Chroma,
        hue := createPropertyFormulaConfig .Hue },
    assetName := "Palette" }

/-- The literal `formulas` object assigned by the color-picker and
shade-count handlers. -/
def freshFormulas : Formulas :=
  { luminance := { activeCurve := none, curveParams := {}, formulaRange := { rFrom := 0, rTo := 1 } },
    chroma := { activeCurve := none, curveParams := {}, formulaRange := { rFrom := 0, rTo := 0.4 } },
    hue := { activeCurve := none, curveParams := {}, formulaRange := { rFrom := 0, rTo := 360 } } }

/-- The color-picker `input` handler: new base color (already converted by
`hexToOklch`), palette reinitialised, snapshot cleared, all formulas reset,
then recompute. -/
def colorPickerInput (ops : CurveOps) (hexFn : JSVal → JSVal → JSVal → String)
    (newBase : OKLCHColor) (state : PluginState) : PluginState :=
  recalculatePalette ops hexFn
    { state with
      baseColor := newBase,
      paletteData := initializePaletteData hexFn newBase state.amountOfShades,
      originalPaletteData := none,
      formulas := freshFormulas }

/-- The shade-count slider `input` handler. -/
def shadesSliderInput (ops : CurveOps) (hexFn : JSVal → JSVal → JSVal → String)
    (n : ℕ) (state : PluginState) : PluginState :=
  recalculatePalette ops hexFn
    { state with
      amountOfShades := n,
      paletteData := initializePaletteData hexFn state.baseColor n,
      originalPaletteData := none,
      formulas := freshFormulas }

/-- Embedding of the `window` message handler for a `base-color` message carrying a color:
it reinitialises the palette and recomputes, but touches neither `formulas`
nor `originalPaletteData`. -/
def baseColorMessage (ops : CurveOps) (hexFn : JSVal → JSVal → JSVal → String)
    (newBase : OKLCHColor) (state : PluginState) : PluginState :=
  recalculatePalette ops hexFn
    { state with
      baseColor := newBase,
      isNodeSelected := true,
      paletteData := initializePaletteData hexFn newBase state.amountOfShades }

/-- A function (curve) button click: toggle the curve for the active property,
saving the snapshot just before the first activation. -/
def functionButtonClick (ops : CurveOps) (hexFn : JSVal → JSVal → JSVal → String)
    (btnText : CurveKind) (state : PluginState) : PluginState :=
  let currentFormula := getActivePropertyFormula state
  if currentFormula.activeCurve = some btnText then
    recalculatePalette ops hexFn
      (updateActivePropertyFormula state
        { activeCurve := some none, curveParams := some {} })
  else
    let s1 := if hasAnyActiveFormula state then state else saveOriginalPaletteState state
    recalculatePalette ops hexFn
      (updateActivePropertyFormula s1
        { activeCurve := some (some btnText),
          curveParams := some (getDefaultParameters (some btnText)) })

/-- Write one named parameter (`newParams[label] = scaledValue`). -/
def EasingParams.setLabel (p : EasingParams) (label : String) (v : ℚ) : EasingParams :=
  if label = "m" then { p with m := some v }
  else if label = "c" then { p with c := some v }
  else if label = "a" then { p with a := some v }
  else if label = "k" then { p with k := some v }
  else if label = "d" then { p with d := some v }
  else if label = "b" then { p with b := some v }
  else p

/-- Embedding of `getParameterLabels(curveType)`. -/
def getParameterLabels : Option CurveKind → List String
  | none => []
  | some .Linear => ["m", "c"]
  | some .Normal => ["a", "k", "d", "c"]
  | some .Quad => ["a", "k", "d", "c"]
  | some .Arctan => ["b", "k", "d", "c"]
  | some .Sine => ["a", "k", "d", "c"]
  | some .Expo => ["a", "k", "d", "c"]

/-- A parameter slider `input` event at position `index` with raw value
`rawValue` (from `parseFloat` on the range input). -/
def paramSliderInput (ops : CurveOps) (hexFn : JSVal → JSVal → JSVal → String)
    (index : ℕ) (rawValue : ℚ) (state : PluginState) : PluginState :=
  let currentFormula := getActivePropertyFormula state
  match currentFormula.activeCurve with
  | none => state
  | some _ =>
    let labels := getParameterLabels currentFormula.activeCurve
    match labels.get? index with
    | none => state
    | some label =>
      let scaledValue :=
        if label = "d" then rawValue / 100 * 5
        else if label = "k" then rawValue / 100 * 2
        else rawValue / 100
      let newParams := currentFormula.curveParams.setLabel label scaledValue
      recalculatePalette ops hexFn
        (updateActivePropertyFormula state { curveParams := some newParams })

/-- A vertical (per-shade) slider `input` event for shade `i` with parsed
value `sliderValue`: deactivates the active channel's formula, writes the
scaled value into that channel of shade `i`, and recomputes. -/
def manualSliderEdit (ops : CurveOps) (hexFn : JSVal → JSVal → JSVal → String)
    (i : ℕ) (sliderValue : ℚ) (state : PluginState) : PluginState :=
  let s1 :=
    if (getActivePropertyFormula state).activeCurve ≠ none then
      updateActivePropertyFormula state { activeCurve := some none, curveParams := some {} }
    else state
  let pd :=
    match s1.activeProperty with
    | .Luminance => modifyIdx s1.paletteData i (fun c0 => { c0 with l := num (sliderValue / 100) })
    | .Chroma => modifyIdx s1.paletteData i (fun c0 => { c0 with c := num (sliderValue / 40 * 0.4) })
    | .Hue => modifyIdx s1.paletteData i (fun c0 => { c0 with h := num sliderValue })
  recalculatePalette ops hexFn { s1 with paletteData := pd }

/-- The numeric `input` event next to a vertical slider for shade `i` (the
handler returns early on NaN input, so the parsed value is a number):
deactivates the active channel's formula, writes the raw value into that
channel of shade `i`, and recomputes. -/
def manualNumericEdit (ops : CurveOps) (hexFn : JSVal → JSVal → JSVal → String)
    (i : ℕ) (inputValue : ℚ) (state : PluginState) : PluginState :=
  let s1 :=
    if (getActivePropertyFormula state).activeCurve ≠ none then
      updateActivePropertyFormula state { activeCurve := some none, curveParams := some {} }
    else state
  let pd :=
    match s1.activeProperty with
    | .Luminance => modifyIdx s1.paletteData i (fun c0 => { c0 with l := num inputValue })
    | .Chroma => modifyIdx s1.paletteData i (fun c0 => { c0 with c := num inputValue })
    | .Hue => modifyIdx s1.paletteData i (fun c0 => { c0 with h := num inputValue })
  recalculatePalette ops hexFn { s1 with paletteData := pd }

/-- The user interactions that may happen between taking the snapshot and
pressing reset (formula toggles, parameter edits, manual edits, recomputes). -/
inductive Op where
  | recompute : Op
  | buttonClick : CurveKind → Op
  | paramSlider : ℕ → ℚ → Op
  | sliderEdit : ℕ → ℚ → Op
  | numericEdit : ℕ → ℚ → Op
deriving DecidableEq, Repr

/-- Interpret one interaction. -/
def applyOp (ops : CurveOps) (hexFn : JSVal → JSVal → JSVal → String) :
    Op → PluginState → PluginState
  | .recompute, s => recalculatePalette ops hexFn s
  | .buttonClick ck, s => functionButtonClick ops hexFn ck s
  | .paramSlider i v, s => paramSliderInput ops hexFn i v s
  | .sliderEdit i v, s => manualSliderEdit ops hexFn i v s
  | .numericEdit i v, s => manualNumericEdit ops hexFn i v s

/-- Interpret a sequence of interactions, first one first. -/
def applyOps (ops : CurveOps) (hexFn : JSVal → JSVal → JSVal → String) :
    List Op → PluginState → PluginState
  | [], s => s
  | op :: rest, s => applyOps ops hexFn rest (applyOp ops hexFn op s)

/-- The value (before clamping/wrapping) that an active formula assigns to
shade `i` of its channel, or `none` when the channel has no active formula.
It depends only on the formula configuration, the shade count and the index —
never on the shade's current values. -/
def channelNewVal (ops : CurveOps) (steps : ℕ) (cfg : PropertyFormulaConfig) (i : ℕ) :
    Option JSVal :=
  match cfg.activeCurve with
  | none => none
  | some ck =>
    some (add (num cfg.formulaRange.rFrom)
      (mul (sub (num cfg.formulaRange.rTo) (num cfg.formulaRange.rFrom))
        (((generateCurveValues ops steps (some ck) cfg.curveParams)[i]?).getD .nan)))

/-- Write a channel's (optional) new value into one shade. -/
def applyChan (property : Property) (nv : Option JSVal) (c0 : PaletteColor) : PaletteColor :=
  match nv with
  | none => c0
  | some v =>
    match property with
    | .Luminance => { c0 with l := jmax (num 0) (jmin (num 1) v) }
    | .Chroma => { c0 with c := jmax (num 0) (jmin (num 0.4) v) }
    | .Hue => { c0 with h := jmod v 360 }

/-- Refresh the cached hex of one shade. -/
def hexify (hexFn : JSVal → JSVal → JSVal → String) (c0 : PaletteColor) : PaletteColor :=
  { c0 with hex := hexFn c0.l c0.c c0.h }

/-- Read one channel's stored value out of a shade. -/
def chanVal : Property → PaletteColor → JSVal
  | .Luminance => fun c0 => c0.l
  | .Chroma => fun c0 => c0.c
  | .Hue => fun c0 => c0.h

/-- Clamp on rationals, `max lo (min hi v)`. -/
def clampQ (lo hi v : ℚ) : ℚ := max lo (min hi v)

/-- Modelled from the spec: the §4.1 curve table (`y = m·x + c`,
`y = a·e^(−(k·x−d)²) + c`, …), parameterised by the resolution policy `R`
that turns an optional supplied parameter and its documented default into
the value used. -/
def specCurveY (ops : CurveOps) (ck : CurveKind) (x : ℚ) (R : Option ℚ → ℚ → ℚ)
    (p : EasingParams) : ℚ :=
  match ck with
  | .Linear => R p.m 0.94 * x + R p.c 0
  | .Normal => R p.a 0.18 * ops.exp (-((R p.k 0.60 * x - R p.d 0) ^ 2)) + R p.c 0.18
  | .Quad => R p.a 0.07 * (R p.k 0.38 * x - R p.d 1.40) ^ 2 + R p.c 0.07
  | .Arctan => R p.b 0.16 * ops.atan (R p.k 0.40 * x - R p.d 1.68) + R p.c 0.18
  | .Sine => R p.a 0.18 * ops.sin (R p.k 0.60 * x - R p.d 0) + R p.c 0.18
  | .Expo => R p.a 0.18 * ops.exp (R p.k 0.35 * x - R p.d 2.50) + R p.c 0

/-- Modelled from the spec (claim C6's reading of `evaluate`): a parameter
present in the map is always used — including the value `0` — and an absent
parameter falls back to its documented default; the result is clamped to
`[0,1]`. -/
def specEvaluate (ops : CurveOps) (ck : CurveKind) (x : ℚ) (p : EasingParams) : ℚ :=
  clampQ 0 1 (specCurveY ops ck x (fun v dflt => v.getD dflt) p)

/-- The amended evaluation contract actually implemented by the code's
`|| default` idiom: a supplied parameter is used only when it is nonzero;
an absent or zero parameter falls back to the documented default. -/
def specEvaluateAmended (ops : CurveOps) (ck : CurveKind) (x : ℚ) (p : EasingParams) : ℚ :=
  clampQ 0 1 (specCurveY ops ck x orFalsyDefault p)

/-- A concrete interpretation of the transcendental functions (used only to
instantiate universally quantified theorems at a computable point). -/
def opsId : CurveOps := { exp := fun q => q, sin := fun q => q, atan := fun q => q }

/-- A concrete stand-in for the external hex conversion. -/
def hexFn0 : JSVal → JSVal → JSVal → String := fun _ _ _ => ""

/-- A small concrete palette. -/
def sampleShades : List PaletteColor :=
  [{ id := 0, l := num 0, c := num 0, h := num 0, hex := "" },
   { id := 1, l := num 1, c := num 0, h := num 0, hex := "" }]

/-- A concrete snapshot-free state with no active formulas. -/
def sampleState : PluginState :=
  { activeProperty := .Luminance,
    paletteData := sampleShades,
    originalPaletteData := none,
    isNodeSelected := false,
    baseColor := { l := num 0, c := num 0, h := num 0 },
    amountOfShades := 2,
    formulas := freshFormulas,
    assetName := "Palette" }

/-- A concrete state with an active Luminance formula and a saved snapshot. -/
def sampleStateWithFormula : PluginState :=
  { sampleState with
    formulas := freshFormulas.setAt .Luminance
      { activeCurve := some .Linear,
        curveParams := getDefaultParameters (some .Linear),
        formulaRange := { rFrom := 0, rTo := 1 } },
    originalPaletteData := some sampleShades }

/-! ### Basic lemmas about the embedding's helpers -/

theorem mapWithIndex_getElem? (f : ℕ → α → β) (l : List α) (n i : ℕ) :
    (mapWithIndex f l n)[i]? = (l[i]?).map (f (n + i)) := by
  induction l generalizing n i with
  | nil => simp [mapWithIndex]
  | cons a as ih =>
    cases i with
    | zero => simp [mapWithIndex]
    | succ j =>
      simp only [mapWithIndex, List.getElem?_cons_succ]
      rw [ih (n + 1) j, show n + 1 + j = n + (j + 1) by omega]

theorem mapWithIndex_length (f : ℕ → α → β) (l : List α) (n : ℕ) :
    (mapWithIndex f l n).length = l.length := by
  induction l generalizing n with
  | nil => rfl
  | cons a as ih => simp only [mapWithIndex, List.length_cons, ih]

theorem modifyIdx_getElem? (l : List α) (i : ℕ) (f : α → α) (j : ℕ) :
    (modifyIdx l i f)[j]? = if i = j then (l[j]?).map f else l[j]? := by
  induction l generalizing i j with
  | nil => simp [modifyIdx]
  | cons a as ih =>
    cases i with
    | zero =>
      cases j with
      | zero => simp [modifyIdx]
      | succ j' => simp [modifyIdx]
    | succ i' =>
      cases j with
      | zero => simp [modifyIdx]
      | succ j' => simpa [modifyIdx] using ih i' j'

theorem copyColor_eq (color : PaletteColor) : copyColor color = color := rfl

theorem map_copyColor (l : List PaletteColor) : l.map copyColor = l := by
  have h : copyColor = fun c0 => c0 := funext fun c0 => rfl
  rw [h]
  exact List.map_id l

theorem Formulas.get_setAt_self (f : Formulas) (p : Property) (cfg : PropertyFormulaConfig) :
    (f.setAt p cfg).get p = cfg := by
  cases p <;> rfl

theorem Formulas.get_setAt_ne (f : Formulas) (p q : Property) (cfg : PropertyFormulaConfig)
    (h : p ≠ q) : (f.setAt p cfg).get q = f.get q := by
  cases p <;> cases q <;> first | rfl | exact absurd rfl h

/-! ### Pointwise characterisation of `recalculatePalette` -/

theorem refreshHex_eq_map (hexFn : JSVal → JSVal → JSVal → String)
    (pd : List PaletteColor) : refreshHex hexFn pd = pd.map (hexify hexFn) := rfl

theorem applyFormulaToChannel_getElem? (ops : CurveOps) (steps : ℕ)
    (cfg : PropertyFormulaConfig) (property : Property) (pd : List PaletteColor) (i : ℕ) :
    (applyFormulaToChannel ops steps cfg property pd)[i]? =
      (pd[i]?).map (applyChan property (channelNewVal ops steps cfg i)) := by
  cases hc : cfg.activeCurve with
  | none =>
    rw [applyFormulaToChannel, hc]
    simp only [channelNewVal, hc]
    cases pd[i]? <;> rfl
  | some ck =>
    rw [applyFormulaToChannel, hc, mapWithIndex_getElem?]
    simp only [channelNewVal, hc, Nat.zero_add]
    cases property <;> cases pd[i]? <;> rfl

theorem refreshHex_getElem? (hexFn : JSVal → JSVal → JSVal → String)
    (pd : List PaletteColor) (i : ℕ) :
    (refreshHex hexFn pd)[i]? = (pd[i]?).map (hexify hexFn) := by
  rw [refreshHex_eq_map, List.getElem?_map]

/-- The complete per-shade effect of one recompute. -/
theorem recalculatePalette_getElem? (ops : CurveOps)
    (hexFn : JSVal → JSVal → JSVal → String) (s : PluginState) (i : ℕ) :
    (recalculatePalette ops hexFn s).paletteData[i]? =
      (s.paletteData[i]?).map (fun c0 => hexify hexFn
        (applyChan .Hue (channelNewVal ops s.amountOfShades (s.formulas.get .Hue) i)
          (applyChan .Chroma (channelNewVal ops s.amountOfShades (s.formulas.get .Chroma) i)
            (applyChan .Luminance
              (channelNewVal ops s.amountOfShades (s.formulas.get .Luminance) i) c0)))) := by
  show (refreshHex hexFn _)[i]? = _
  rw [refreshHex_getElem?, applyFormulaToChannel_getElem?, applyFormulaToChannel_getElem?,
    applyFormulaToChannel_getElem?, Option.map_map, Option.map_map, Option.map_map]
  rfl

theorem chanVal_hexify (p : Property) (hexFn : JSVal → JSVal → JSVal → String)
    (c0 : PaletteColor) : chanVal p (hexify hexFn c0) = chanVal p c0 := by
  cases p <;> rfl

theorem chanVal_applyChan_ne (p q : Property) (nv : Option JSVal) (c0 : PaletteColor)
    (h : q ≠ p) : chanVal p (applyChan q nv c0) = chanVal p c0 := by
  cases nv <;> cases p <;> cases q <;> first | rfl | exact absurd rfl h

theorem applyChan_id_eq (p : Property) (nv : Option JSVal) (c0 : PaletteColor) :
    (applyChan p nv c0).id = c0.id := by
  cases nv <;> cases p <;> rfl

theorem channelNewVal_of_inactive (ops : CurveOps) (steps : ℕ)
    (cfg : PropertyFormulaConfig) (i : ℕ) (h : cfg.activeCurve = none) :
    channelNewVal ops steps cfg i = none := by
  rw [channelNewVal, h]

theorem applyFormulaToChannel_length (ops : CurveOps) (steps : ℕ)
    (cfg : PropertyFormulaConfig) (property : Property) (pd : List PaletteColor) :
    (applyFormulaToChannel ops steps cfg property pd).length = pd.length := by
  cases hc : cfg.activeCurve with
  | none => rw [applyFormulaToChannel, hc]
  | some ck => rw [applyFormulaToChannel, hc]; exact mapWithIndex_length _ _ _

/-! ### Claim theorems -/

/-- Claim C10: implicit frame of recompute: `recalculatePalette` leaves every
state component except the shades' `l`, `c`, `h`, `hex` untouched — the
active property, base color, shade count, selection flag, asset name,
snapshot and all three formula configurations are unchanged, the palette
keeps its length, and every shade keeps its `id`. -/
theorem recalculatePalette_frame (ops : CurveOps)
    (hexFn : JSVal → JSVal → JSVal → String) (s : PluginState) :
    (recalculatePalette ops hexFn s).activeProperty = s.activeProperty ∧
    (recalculatePalette ops hexFn s).baseColor = s.baseColor ∧
    (recalculatePalette ops hexFn s).amountOfShades = s.amountOfShades ∧
    (recalculatePalette ops hexFn s).isNodeSelected = s.isNodeSelected ∧
    (recalculatePalette ops hexFn s).assetName = s.assetName ∧
    (recalculatePalette ops hexFn s).originalPaletteData = s.originalPaletteData ∧
    (recalculatePalette ops hexFn s).formulas = s.formulas ∧
    (recalculatePalette ops hexFn s).paletteData.length = s.paletteData.length ∧
    ∀ i : ℕ, ((recalculatePalette ops hexFn s).paletteData[i]?).map PaletteColor.id =
      (s.paletteData[i]?).map PaletteColor.id := by
  refine ⟨rfl, rfl, rfl, rfl, rfl, rfl, rfl, ?_, ?_⟩
  · show (refreshHex hexFn _).length = _
    rw [refreshHex_eq_map, List.length_map, applyFormulaToChannel_length,
      applyFormulaToChannel_length, applyFormulaToChannel_length]
  · intro i
    rw [recalculatePalette_getElem?, Option.map_map]
    cases s.paletteData[i]? with
    | none => rfl
    | some c0 =>
      show some ((hexify hexFn _).id) = _
      rw [show ∀ c1 : PaletteColor, (hexify hexFn c1).id = c1.id from fun _ => rfl,
        applyChan_id_eq, applyChan_id_eq, applyChan_id_eq]
      rfl

/-- Claim C9: recompute is idempotent: applying `recalculatePalette` a second time
changes nothing — the formulas, shade count and ranges are unchanged by the
first application, so each active channel writes the identical value again,
inactive channels stay untouched, and the hex refresh reproduces itself. -/
theorem recalculatePalette_idem (ops : CurveOps)
    (hexFn : JSVal → JSVal → JSVal → String) (s : PluginState) :
    recalculatePalette ops hexFn (recalculatePalette ops hexFn s) =
      recalculatePalette ops hexFn s := by
  have hlist : (recalculatePalette ops hexFn (recalculatePalette ops hexFn s)).paletteData =
      (recalculatePalette ops hexFn s).paletteData := by
    apply List.ext_getElem?
    intro i
    rw [recalculatePalette_getElem? ops hexFn (recalculatePalette ops hexFn s) i,
      recalculatePalette_getElem? ops hexFn s i, Option.map_map]
    have hf : (recalculatePalette ops hexFn s).formulas = s.formulas := rfl
    have ha : (recalculatePalette ops hexFn s).amountOfShades = s.amountOfShades := rfl
    simp only [hf, ha]
    cases s.paletteData[i]? with
    | none => rfl
    | some c0 =>
      show some _ = some _
      cases hL : channelNewVal ops s.amountOfShades (s.formulas.get .Luminance) i <;>
        cases hC : channelNewVal ops s.amountOfShades (s.formulas.get .Chroma) i <;>
        cases hH : channelNewVal ops s.amountOfShades (s.formulas.get .Hue) i <;>
        simp only [Function.comp_apply, hL, hC, hH] <;> rfl
  calc recalculatePalette ops hexFn (recalculatePalette ops hexFn s)
      = { recalculatePalette ops hexFn s with
          paletteData := (recalculatePalette ops hexFn (recalculatePalette ops hexFn s)).paletteData } := rfl
    _ = recalculatePalette ops hexFn s := by rw [hlist]

/-- Claim C1: channel independence of recompute: a channel whose formula is
inactive keeps every shade's stored value for that channel under
`recalculatePalette` — in particular, when only Hue carries an active
formula, every shade's `l` and `c` survive unchanged (only `h` and the
derived `hex` may change, by the frame property), and symmetrically a
formula on one channel never alters the per-shade values of the other two
channels. -/
theorem recalculatePalette_channel_independence (ops : CurveOps)
    (hexFn : JSVal → JSVal → JSVal → String) (s : PluginState) :
    (∀ p : Property, (s.formulas.get p).activeCurve = none → ∀ i : ℕ,
      ((recalculatePalette ops hexFn s).paletteData[i]?).map (chanVal p) =
        (s.paletteData[i]?).map (chanVal p)) ∧
    ((s.formulas.get .Luminance).activeCurve = none →
      (s.formulas.get .Chroma).activeCurve = none → ∀ i : ℕ,
      ((recalculatePalette ops hexFn s).paletteData[i]?).map PaletteColor.l =
        (s.paletteData[i]?).map PaletteColor.l ∧
      ((recalculatePalette ops hexFn s).paletteData[i]?).map PaletteColor.c =
        (s.paletteData[i]?).map PaletteColor.c) := by
  have main : ∀ p : Property, (s.formulas.get p).activeCurve = none → ∀ i : ℕ,
      ((recalculatePalette ops hexFn s).paletteData[i]?).map (chanVal p) =
        (s.paletteData[i]?).map (chanVal p) := by
    intro p hp i
    rw [recalculatePalette_getElem?, Option.map_map]
    cases s.paletteData[i]? with
    | none => rfl
    | some c0 =>
      show some (chanVal p (hexify hexFn _)) = some (chanVal p c0)
      rw [chanVal_hexify]
      have hz := channelNewVal_of_inactive ops s.amountOfShades (s.formulas.get p) i hp
      have hnone : ∀ (q : Property) (c1 : PaletteColor), applyChan q none c1 = c1 :=
        fun _ _ => rfl
      cases p with
      | Luminance =>
        rw [chanVal_applyChan_ne .Luminance .Hue _ _ (by decide),
          chanVal_applyChan_ne .Luminance .Chroma _ _ (by decide), hz, hnone]
      | Chroma =>
        rw [chanVal_applyChan_ne .Chroma .Hue _ _ (by decide), hz, hnone,
          chanVal_applyChan_ne .Chroma .Luminance _ _ (by decide)]
      | Hue =>
        rw [hz, hnone, chanVal_applyChan_ne .Hue .Chroma _ _ (by decide),
          chanVal_applyChan_ne .Hue .Luminance _ _ (by decide)]
  refine ⟨main, fun hL hC i => ⟨?_, ?_⟩⟩
  · exact main .Luminance hL i
  · exact main .Chroma hC i

theorem manualEdit_formulas_aux (s : PluginState) :
    (((if (getActivePropertyFormula s).activeCurve ≠ none
        then updateActivePropertyFormula s { activeCurve := some none, curveParams := some {} }
        else s).formulas.get s.activeProperty).activeCurve = none) ∧
    ∀ p : Property, p ≠ s.activeProperty →
      (if (getActivePropertyFormula s).activeCurve ≠ none
        then updateActivePropertyFormula s { activeCurve := some none, curveParams := some {} }
        else s).formulas.get p = s.formulas.get p := by
  by_cases hc : (getActivePropertyFormula s).activeCurve = none
  · rw [if_neg (fun h => h hc)]
    exact ⟨hc, fun p _ => rfl⟩
  · rw [if_pos hc]
    constructor
    · show ((s.formulas.setAt s.activeProperty _).get s.activeProperty).activeCurve = none
      rw [Formulas.get_setAt_self]
      rfl
    · intro p hp
      show (s.formulas.setAt s.activeProperty _).get p = s.formulas.get p
      exact Formulas.get_setAt_ne _ _ _ _ (Ne.symm hp)

/-- Claim C2: a manual edit of one shade's value for the active channel — via the
vertical slider or the numeric input — forces the active channel's formula to
`none` while leaving the other two channels' formula configurations exactly
unchanged. -/
theorem manualEdit_disables_only_active_formula (ops : CurveOps)
    (hexFn : JSVal → JSVal → JSVal → String) (i : ℕ) (v : ℚ) (s : PluginState) :
    (((manualSliderEdit ops hexFn i v s).formulas.get s.activeProperty).activeCurve = none ∧
      ∀ p : Property, p ≠ s.activeProperty →
        (manualSliderEdit ops hexFn i v s).formulas.get p = s.formulas.get p) ∧
    (((manualNumericEdit ops hexFn i v s).formulas.get s.activeProperty).activeCurve = none ∧
      ∀ p : Property, p ≠ s.activeProperty →
        (manualNumericEdit ops hexFn i v s).formulas.get p = s.formulas.get p) := by
  have aux := manualEdit_formulas_aux s
  exact ⟨⟨aux.1, aux.2⟩, ⟨aux.1, aux.2⟩⟩

theorem functionButtonClick_eq (ops : CurveOps)
    (hexFn : JSVal → JSVal → JSVal → String) (ck : CurveKind) (s : PluginState) :
    functionButtonClick ops hexFn ck s =
      if (getActivePropertyFormula s).activeCurve = some ck
      then recalculatePalette ops hexFn (updateActivePropertyFormula s
        { activeCurve := some none, curveParams := some {} })
      else recalculatePalette ops hexFn (updateActivePropertyFormula
        (if hasAnyActiveFormula s then s else saveOriginalPaletteState s)
        { activeCurve := some (some ck),
          curveParams := some (getDefaultParameters (some ck)) }) := rfl

theorem functionButtonClick_originalPaletteData (ops : CurveOps)
    (hexFn : JSVal → JSVal → JSVal → String) (ck : CurveKind) (s : PluginState) :
    (functionButtonClick ops hexFn ck s).originalPaletteData =
      if (getActivePropertyFormula s).activeCurve = some ck then s.originalPaletteData
      else if hasAnyActiveFormula s then s.originalPaletteData
      else if s.originalPaletteData = none then some s.paletteData
      else s.originalPaletteData := by
  rw [functionButtonClick_eq]
  by_cases h1 : (getActivePropertyFormula s).activeCurve = some ck
  · simp only [if_pos h1]
    rfl
  · simp only [if_neg h1]
    by_cases h2 : hasAnyActiveFormula s
    · simp only [if_pos h2]
      rfl
    · simp only [if_neg h2]
      cases heq : s.originalPaletteData with
      | none =>
        simp only [if_pos heq]
        show (saveOriginalPaletteState s).originalPaletteData = some s.paletteData
        simp [saveOriginalPaletteState, heq, map_copyColor]
      | some l =>
        rw [if_neg (by simp [heq])]
        show (saveOriginalPaletteState s).originalPaletteData = some l
        simp [saveOriginalPaletteState, heq]

/-- Claim C4: the snapshot is taken at most once: `saveOriginalPaletteState` is a
no-op when a snapshot already exists (hence idempotent — a second call keeps
exactly what the first captured), and a curve-button click stores the current
shades as the snapshot precisely when it activates a curve while no channel
had an active formula and no snapshot existed; in every other situation the
stored snapshot is left untouched. -/
theorem snapshot_taken_at_most_once (ops : CurveOps)
    (hexFn : JSVal → JSVal → JSVal → String) (ck : CurveKind) (s : PluginState) :
    (s.originalPaletteData ≠ none → saveOriginalPaletteState s = s) ∧
    saveOriginalPaletteState (saveOriginalPaletteState s) = saveOriginalPaletteState s ∧
    (functionButtonClick ops hexFn ck s).originalPaletteData =
      (if (getActivePropertyFormula s).activeCurve = some ck then s.originalPaletteData
       else if hasAnyActiveFormula s then s.originalPaletteData
       else if s.originalPaletteData = none then some s.paletteData
       else s.originalPaletteData) := by
  have noop : ∀ t : PluginState, t.originalPaletteData ≠ none →
      saveOriginalPaletteState t = t := by
    intro t ht
    cases heq : t.originalPaletteData with
    | none => exact absurd heq ht
    | some l => simp [saveOriginalPaletteState, heq]
  refine ⟨noop s, ?_, functionButtonClick_originalPaletteData ops hexFn ck s⟩
  cases heq : s.originalPaletteData with
  | some l =>
    rw [noop s (by rw [heq]; exact fun hx => Option.noConfusion hx),
      noop s (by rw [heq]; exact fun hx => Option.noConfusion hx)]
  | none =>
    apply noop
    simp [saveOriginalPaletteState, heq]

theorem applyOp_preserves_snapshot (ops : CurveOps)
    (hexFn : JSVal → JSVal → JSVal → String) (op : Op) (s : PluginState)
    (h : s.originalPaletteData ≠ none) :
    (applyOp ops hexFn op s).originalPaletteData = s.originalPaletteData := by
  cases op with
  | recompute => rfl
  | buttonClick ck =>
    show (functionButtonClick ops hexFn ck s).originalPaletteData = _
    rw [functionButtonClick_originalPaletteData]
    split_ifs <;> first | rfl | exact absurd (by assumption) h
  | paramSlider i v =>
    show (paramSliderInput ops hexFn i v s).originalPaletteData = _
    cases hc : (getActivePropertyFormula s).activeCurve with
    | none => simp [paramSliderInput, hc]
    | some ck =>
      cases hl : (getParameterLabels (some ck : Option CurveKind)).get? i with
      | none => simp only [paramSliderInput, hc, hl]
      | some label =>
        simp only [paramSliderInput, hc, hl]
        rfl
  | sliderEdit i v =>
    show ((if (getActivePropertyFormula s).activeCurve ≠ none
        then updateActivePropertyFormula s { activeCurve := some none, curveParams := some {} }
        else s) : PluginState).originalPaletteData = s.originalPaletteData
    split_ifs <;> rfl
  | numericEdit i v =>
    show ((if (getActivePropertyFormula s).activeCurve ≠ none
        then updateActivePropertyFormula s { activeCurve := some none, curveParams := some {} }
        else s) : PluginState).originalPaletteData = s.originalPaletteData
    split_ifs <;> rfl

theorem applyOps_preserves_snapshot (ops : CurveOps)
    (hexFn : JSVal → JSVal → JSVal → String) (L : List Op) (s : PluginState)
    (h : s.originalPaletteData ≠ none) :
    (applyOps ops hexFn L s).originalPaletteData = s.originalPaletteData := by
  induction L generalizing s with
  | nil => rfl
  | cons op rest ih =>
    show (applyOps ops hexFn rest (applyOp ops hexFn op s)).originalPaletteData = _
    have h1 := applyOp_preserves_snapshot ops hexFn op s h
    rw [ih (applyOp ops hexFn op s) (by rw [h1]; exact h), h1]

/-- Claim C3: snapshot round-trip: resetting a state whose snapshot is present
replaces the shades by exactly the snapshot's elements, clears the snapshot
and sets all three channels' formulas to `none`; the snapshot survives any
sequence of formula toggles, parameter edits, manual edits and recomputes,
so after `saveOriginalPaletteState` on a snapshot-free state the reset
restores the shades captured at that moment; and resetting a snapshot-free
state is a no-op. -/
theorem reset_restores_snapshot (ops : CurveOps)
    (hexFn : JSVal → JSVal → JSVal → String) (s : PluginState) (L : List Op) :
    (∀ orig : List PaletteColor, s.originalPaletteData = some orig →
      (resetPaletteToOriginal s).paletteData = orig ∧
      (resetPaletteToOriginal s).originalPaletteData = none ∧
      ∀ p : Property, ((resetPaletteToOriginal s).formulas.get p).activeCurve = none) ∧
    (s.originalPaletteData = none →
      (resetPaletteToOriginal (applyOps ops hexFn L (saveOriginalPaletteState s))).paletteData
          = s.paletteData ∧
      (resetPaletteToOriginal
        (applyOps ops hexFn L (saveOriginalPaletteState s))).originalPaletteData = none ∧
      ∀ p : Property, ((resetPaletteToOriginal
        (applyOps ops hexFn L (saveOriginalPaletteState s))).formulas.get p).activeCurve
          = none) ∧
    (s.originalPaletteData = none → resetPaletteToOriginal s = s) := by
  have direct : ∀ (t : PluginState) (orig : List PaletteColor),
      t.originalPaletteData = some orig →
      (resetPaletteToOriginal t).paletteData = orig ∧
      (resetPaletteToOriginal t).originalPaletteData = none ∧
      ∀ p : Property, ((resetPaletteToOriginal t).formulas.get p).activeCurve = none := by
    intro t orig heq
    refine ⟨?_, ?_, ?_⟩
    · simp [resetPaletteToOriginal, heq, map_copyColor]
    · simp [resetPaletteToOriginal, heq]
    · intro p
      cases p <;> simp [resetPaletteToOriginal, heq, Formulas.get,
        createPropertyFormulaConfig]
  refine ⟨fun orig heq => direct s orig heq, fun h0 => ?_, fun h0 => ?_⟩
  · have hsave : (saveOriginalPaletteState s).originalPaletteData = some s.paletteData := by
      simp [saveOriginalPaletteState, h0, map_copyColor]
    have hpres := applyOps_preserves_snapshot ops hexFn L (saveOriginalPaletteState s)
      (by rw [hsave]; exact fun hx => Option.noConfusion hx)
    exact direct _ s.paletteData (hpres.trans hsave)
  · simp [resetPaletteToOriginal, h0]

theorem range_getElem? (n i : ℕ) :
    (List.range n)[i]? = if i < n then some i else none := by
  by_cases h : i < n
  · simp [List.getElem?_range, h]
  · rw [if_neg h]
    apply List.getElem?_eq_none
    simpa using Nat.le_of_not_lt h

theorem initializePaletteData_getElem? (hexFn : JSVal → JSVal → JSVal → String)
    (base : OKLCHColor) (steps i : ℕ) :
    (initializePaletteData hexFn base steps)[i]? =
      if i < steps then
        some { id := i, l := normX i steps, c := base.c, h := base.h,
               hex := hexFn (normX i steps) base.c base.h }
      else none := by
  rw [initializePaletteData, List.getElem?_map, range_getElem?]
  by_cases h : i < steps
  · rw [if_pos h, if_pos h]
    rfl
  · rw [if_neg h, if_neg h]
    rfl

theorem freshFormulas_inactive (p : Property) :
    (freshFormulas.get p).activeCurve = none := by
  cases p <;> rfl

/-- The shades produced by rebuilding the palette with no active formula:
recompute only refreshes the (already consistent) hex codes, so the result is
exactly the uniform ramp produced by `initializePaletteData`. -/
theorem recalc_of_rebuilt_getElem? (ops : CurveOps)
    (hexFn : JSVal → JSVal → JSVal → String) (t : PluginState)
    (hform : t.formulas = freshFormulas)
    (base : OKLCHColor) (hpd : t.paletteData = initializePaletteData hexFn base t.amountOfShades)
    (i : ℕ) :
    (recalculatePalette ops hexFn t).paletteData[i]? =
      if i < t.amountOfShades then
        some { id := i, l := normX i t.amountOfShades, c := base.c, h := base.h,
               hex := hexFn (normX i t.amountOfShades) base.c base.h }
      else none := by
  rw [recalculatePalette_getElem?, hform, hpd, initializePaletteData_getElem?]
  by_cases h : i < t.amountOfShades
  · rw [if_pos h]
    rw [channelNewVal_of_inactive _ _ _ _ (freshFormulas_inactive .Luminance),
      channelNewVal_of_inactive _ _ _ _ (freshFormulas_inactive .Chroma),
      channelNewVal_of_inactive _ _ _ _ (freshFormulas_inactive .Hue)]
    rfl
  · rw [if_neg h]
    rfl

/-- Claim C5, amended: structural changes made through the plugin's own controls —
the color picker and the shade-count slider — rebuild the shades as the
uniform lightness ramp carrying the (new) base color's chroma and hue, reset
all three channels' formulas and clear the snapshot; the `base-color` message
from the host, by contrast, rebuilds the shades and recomputes but leaves the
three formula configurations and the snapshot exactly as they were. -/
theorem structural_change_resets (ops : CurveOps)
    (hexFn : JSVal → JSVal → JSVal → String) (newBase : OKLCHColor) (n : ℕ)
    (s : PluginState) :
    ((colorPickerInput ops hexFn newBase s).formulas = freshFormulas ∧
      (colorPickerInput ops hexFn newBase s).originalPaletteData = none ∧
      ∀ i : ℕ, (colorPickerInput ops hexFn newBase s).paletteData[i]? =
        if i < s.amountOfShades then
          some { id := i, l := normX i s.amountOfShades, c := newBase.c, h := newBase.h,
                 hex := hexFn (normX i s.amountOfShades) newBase.c newBase.h }
        else none) ∧
    ((shadesSliderInput ops hexFn n s).formulas = freshFormulas ∧
      (shadesSliderInput ops hexFn n s).originalPaletteData = none ∧
      ∀ i : ℕ, (shadesSliderInput ops hexFn n s).paletteData[i]? =
        if i < n then
          some { id := i, l := normX i n, c := s.baseColor.c, h := s.baseColor.h,
                 hex := hexFn (normX i n) s.baseColor.c s.baseColor.h }
        else none) ∧
    ((baseColorMessage ops hexFn newBase s).formulas = s.formulas ∧
      (baseColorMessage ops hexFn newBase s).originalPaletteData = s.originalPaletteData ∧
      (baseColorMessage ops hexFn newBase s).isNodeSelected = true) := by
  refine ⟨⟨rfl, rfl, fun i => ?_⟩, ⟨rfl, rfl, fun i => ?_⟩, rfl, rfl, rfl⟩
  · exact recalc_of_rebuilt_getElem? ops hexFn _ rfl newBase rfl i
  · exact recalc_of_rebuilt_getElem? ops hexFn _ rfl s.baseColor rfl i

/-- Counterexample to claim C5 as stated: the claim demands that *every* base-color change —
including the one received from the host — resets the formulas and clears the
snapshot, but on a concrete state with an active Luminance formula and a
saved snapshot, the host's `base-color` message leaves both in place. -/
theorem baseColorMessage_keeps_formula_counterexample :
    ((baseColorMessage opsId hexFn0 { l := num 1, c := num 0, h := num 0 }
        sampleStateWithFormula).formulas.get .Luminance).activeCurve ≠ none ∧
    (baseColorMessage opsId hexFn0 { l := num 1, c := num 0, h := num 0 }
        sampleStateWithFormula).originalPaletteData ≠ none := by
  constructor
  · show (some CurveKind.Linear : Option CurveKind) ≠ none
    exact fun hx => Option.noConfusion hx
  · show (some sampleShades : Option (List PaletteColor)) ≠ none
    exact fun hx => Option.noConfusion hx

theorem curveY_num (ops : CurveOps) (ck : CurveKind) (x : ℚ) (p : EasingParams) :
    curveY ops ck (num x) p = num (specCurveY ops ck x orFalsyDefault p) := by
  cases ck <;>
    simp [curveY, specCurveY, JSVal.add, JSVal.mul, JSVal.sub, JSVal.neg, JSVal.map1,
      pow_two]

theorem clamp01_num (y : ℚ) : clamp01 (num y) = num (clampQ 0 1 y) := rfl

theorem normX_of_ge_two (i steps : ℕ) (h : 2 ≤ steps) :
    normX i steps = num ((i : ℚ) / ((steps : ℚ) - 1)) := by
  rw [normX, if_neg (by omega)]

/-- Claim C6, amended: parameter resolution in curve evaluation: for every curve
kind and parameter map, `generateCurveValues` evaluates the documented
formula using, for each parameter, the supplied value when it is present
*and nonzero*, and the documented default when it is absent — or when the
supplied value is `0`, which the JS `|| default` idiom treats as absent;
the result is clamped to `[0,1]`. -/
theorem generateCurveValues_resolves_params (ops : CurveOps) (ck : CurveKind)
    (steps : ℕ) (p : EasingParams) (i : ℕ) (h2 : 2 ≤ steps) (hi : i < steps) :
    (generateCurveValues ops steps (some ck) p)[i]? =
      some (num (specEvaluateAmended ops ck ((i : ℚ) / ((steps : ℚ) - 1)) p)) := by
  show ((List.range steps).map fun j => clamp01 (curveY ops ck (normX j steps) p))[i]? = _
  rw [List.getElem?_map, range_getElem?, if_pos hi]
  show some (clamp01 (curveY ops ck (normX i steps) p)) = _
  rw [normX_of_ge_two i steps h2, curveY_num, clamp01_num]
  rfl

/-- Counterexample to claim C6 as stated: the claim says a parameter present in the map is used
even when its value is `0`, but with `m = 0` supplied the Linear curve still
evaluates with the default slope `0.94`: at `x = 1` the code produces `0.94`
where the claimed contract produces `0`. -/
theorem supplied_zero_parameter_ignored_counterexample :
    (generateCurveValues opsId 2 (some .Linear) { m := some 0 })[1]? = some (num 0.94) ∧
    specEvaluate opsId .Linear 1 { m := some 0 } = 0 ∧ (0.94 : ℚ) ≠ 0 := by
  refine ⟨?_, ?_, by norm_num⟩
  · rw [generateCurveValues_resolves_params opsId .Linear 2 _ 1 (by norm_num) (by norm_num)]
    norm_num [specEvaluateAmended, specCurveY, orFalsyDefault, clampQ]
  · norm_num [specEvaluate, specCurveY, clampQ]

/-- Claim C7, code evaluation: at `shadeCount = 1` the normalization `i/(steps-1)` is `0/0`, i.e.
NaN — it is not treated as `x = 0`: curve evaluation (with and without an
active curve) yields NaN, and the initial palette's single shade has
`l = NaN`, which then propagates to the hex conversion input. -/
theorem single_shade_division_by_zero :
    generateCurveValues opsId 1 (some .Linear) {} = [JSVal.nan] ∧
    generateCurveValues opsId 1 none {} = [JSVal.nan] ∧
    (initializePaletteData hexFn0 { l := num 1, c := num 0, h := num 0 } 1).map
      PaletteColor.l = [JSVal.nan] :=
  ⟨rfl, rfl, rfl⟩

/-- Claim C8, code evaluation: the two curve-evaluation code paths disagree.  Interpreting both
`Math.exp` and `Math.sin` as the identity function (any interpretation with
`exp ≠ sin` separates them), at `x = 1` with default parameters the `Normal`
curve yields `0.288` in `calculateEasedFactor` (which calls `sin`) but
`0.1152` in `generateCurveValues` and in the documented formula
`a·e^(−(k·x−d)²)+c`; the `Expo` curve yields `−0.83205` in
`calculateEasedFactor` (which computes the Gaussian) but `−0.387` in
`generateCurveValues` and in the documented formula `a·e^(k·x−d)+c`. -/
theorem calculateEasedFactor_diverges :
    calculateEasedFactor opsId (num 1)
      { activeCurve := some .Normal, curveParams := {},
        formulaRange := { rFrom := 0, rTo := 1 } } = num 0.288 ∧
    curveY opsId .Normal (num 1) {} = num 0.1152 ∧
    specCurveY opsId .Normal 1 orFalsyDefault {} = 0.1152 ∧
    calculateEasedFactor opsId (num 1)
      { activeCurve := some .Expo, curveParams := {},
        formulaRange := { rFrom := 0, rTo := 1 } } = num (-0.83205) ∧
    curveY opsId .Expo (num 1) {} = num (-0.387) ∧
    specCurveY opsId .Expo 1 orFalsyDefault {} = -0.387 ∧
    (0.288 : ℚ) ≠ 0.1152 ∧ ((-0.83205 : ℚ)) ≠ -0.387 := by
  refine ⟨?_, ?_, ?_, ?_, ?_, ?_, by norm_num, by norm_num⟩ <;>
    norm_num [calculateEasedFactor, curveY, specCurveY, orFalsyDefault, opsId,
      JSVal.add, JSVal.mul, JSVal.sub, JSVal.neg, JSVal.map1]

/-- Witness for C1 at a concrete state and channel. -/
theorem recalculatePalette_channel_independence_witness :
    (sampleState.formulas.get .Hue).activeCurve = none ∧
    ((recalculatePalette opsId hexFn0 sampleState).paletteData[0]?).map (chanVal .Hue) =
      (sampleState.paletteData[0]?).map (chanVal .Hue) :=
  ⟨rfl, (recalculatePalette_channel_independence opsId hexFn0 sampleState).1 .Hue rfl 0⟩

/-- Witness for C2 at a concrete state, shade and channel. -/
theorem manualEdit_disables_only_active_formula_witness :
    Property.Chroma ≠ sampleState.activeProperty ∧
    (manualSliderEdit opsId hexFn0 0 50 sampleState).formulas.get .Chroma =
      sampleState.formulas.get .Chroma :=
  ⟨by decide,
   (manualEdit_disables_only_active_formula opsId hexFn0 0 50 sampleState).1.2 .Chroma
     (by decide)⟩

/-- Witness for C3 at a concrete state carrying a snapshot. -/
theorem reset_restores_snapshot_witness :
    sampleStateWithFormula.originalPaletteData = some sampleShades ∧
    (resetPaletteToOriginal sampleStateWithFormula).paletteData = sampleShades ∧
    (resetPaletteToOriginal sampleStateWithFormula).originalPaletteData = none ∧
    ((resetPaletteToOriginal sampleStateWithFormula).formulas.get .Luminance).activeCurve
      = none :=
  ⟨rfl,
   ((reset_restores_snapshot opsId hexFn0 sampleStateWithFormula []).1 sampleShades rfl).1,
   ((reset_restores_snapshot opsId hexFn0 sampleStateWithFormula []).1 sampleShades rfl).2.1,
   ((reset_restores_snapshot opsId hexFn0 sampleStateWithFormula []).1 sampleShades
     rfl).2.2 .Luminance⟩

/-- Witness for C4 at a concrete state carrying a snapshot. -/
theorem snapshot_taken_at_most_once_witness :
    sampleStateWithFormula.originalPaletteData ≠ none ∧
    saveOriginalPaletteState sampleStateWithFormula = sampleStateWithFormula :=
  ⟨fun hx => Option.noConfusion hx,
   (snapshot_taken_at_most_once opsId hexFn0 .Linear sampleStateWithFormula).1
     (fun hx => Option.noConfusion hx)⟩

/-- Witness for C6 at a concrete curve, shade count and index. -/
theorem generateCurveValues_resolves_params_witness :
    ((2 : ℕ) ≤ 2 ∧ (1 : ℕ) < 2) ∧
    (generateCurveValues opsId 2 (some .Linear) EasingParams.empty)[1]? =
      some (num (specEvaluateAmended opsId .Linear
        (((1 : ℕ) : ℚ) / (((2 : ℕ) : ℚ) - 1)) EasingParams.empty)) :=
  ⟨⟨by decide, by decide⟩,
   generateCurveValues_resolves_params opsId .Linear 2 EasingParams.empty 1
     (by decide) (by decide)⟩
